import Mathlib

/-!
Verification of the TickTick CLI client (scripts/ticktick_api.py and
scripts/ticktick_cli.py) against its natural-language specification.

The Python code is shallowly embedded: JSON-like records become association
lists over a small scalar value type, stateful HTTP interaction becomes
explicit oracles (functions from request parameters to responses) plus an
explicit list of network events, and every fatal `_error_exit` or uncaught
exception becomes an `Except.error` value.
-/

namespace TickTick

/-! ## Data model -/

/-- A JSON scalar value as it appears in the task/tag records the claims
are about (string, integer, boolean).  Nested structure that the code
accesses through fixed keys (`syncTaskBean.update`, project-data `tasks`)
is modelled by typed structures below. -/
inductive JVal where
  | s : String → JVal
  | n : Int → JVal
  | b : Bool → JVal
  deriving DecidableEq, Repr

/-- A JSON object / Python dict: association list, first match wins on
lookup (Python dicts have unique keys, so first-match lookup agrees with
dict lookup on any list image of a dict). -/
abbrev Record : Type := List (String × JVal)

/-- Python `d.get(k)` on a dict: first entry with the given key, if any. -/
def lookupField (r : Record) (k : String) : Option JVal :=
  match r with
  | [] => none
  | (a, v) :: rest => if a = k then some v else lookupField rest k

/-- Python truthiness of a JSON scalar (`if x:`). -/
def jvalTruthy : JVal → Bool
  | .s st => st ≠ ""
  | .n i => i ≠ 0
  | .b bb => bb

/-- Python truthiness of an optional string (`if s:` where `s` is `None`
or a `str`). -/
def optTruthy : Option String → Bool
  | none => false
  | some st => st ≠ ""

/-- Python `existing.update(kwargs)` on dicts, observed through lookups:
every key of `e` keeps its position, its value overwritten by `u`'s value
when `u` has the key; keys of `u` that are not in `e` are appended. -/
def dictUpdate (e u : Record) : Record :=
  e.map (fun p => match lookupField u p.1 with
                  | some v => (p.1, v)
                  | none => p)
  ++ u.filter (fun p => (lookupField e p.1).isNone)

/-- Outgoing HTTP traffic of the embedded operations. -/
inductive NetEvent where
  | getTask (projectId taskId : String)
  | postTask (taskId : String)
  | loginPost (endpoint : String)
  deriving DecidableEq, Repr

/-! ## Priority maps (`PRIORITY_MAP`, `PRIORITY_REVERSE`) -/

/-- The dict `PRIORITY_MAP = {"none": 0, "low": 1, "medium": 3, "high": 5}`,
read through `dict.get`. -/
def PRIORITY_MAP : String → Option Nat
  | "none" => some 0
  | "low" => some 1
  | "medium" => some 3
  | "high" => some 5
  | _ => none

/-- The dict `PRIORITY_REVERSE = {0: "none", 1: "low", 3: "medium", 5: "high"}`,
read through `dict.get`. -/
def PRIORITY_REVERSE : Nat → Option String
  | 0 => some "none"
  | 1 => some "low"
  | 3 => some "medium"
  | 5 => some "high"
  | _ => none

/-! ## Dispatcher: partial task update (`TickTickClient.update_task`) -/

/-- Embeds `TickTickClient.update_task` (GET-merge-POST).  `hasV1` is whether the
V1 client was constructed; `getTask` is the oracle for
`v1.get_task(project_id, task_id)` (a fatal `_error_exit` on an HTTP error
becomes `Except.error`).  The result is the dispatcher's outcome — on
success the merged record that is submitted to `v1.update_task` — paired
with the list of network events issued.  A non-string truthy `projectId`
makes `urllib.parse.quote` raise before any request, modelled as an error
with no events. -/
def update_task (hasV1 : Bool) (getTask : String → String → Except String Record)
    (taskId : String) (kwargs : Record) : Except String Record × List NetEvent :=
  if !hasV1 then (.error "update_task 需要 V1 認證", [])
  else
    match lookupField kwargs "projectId" with
    | none => (.error "update_task 需要 projectId", [])
    | some v =>
      if !jvalTruthy v then (.error "update_task 需要 projectId", [])
      else
        match v with
        | .s pid =>
          match getTask pid taskId with
          | .error e => (.error e, [.getTask pid taskId])
          | .ok existing =>
            (.ok (dictUpdate existing kwargs),
             [.getTask pid taskId, .postTask taskId])
        | _ => (.error "TypeError", [])

/-! ## Dispatcher: tag creation (`TickTickClient.create_tag`)

Python's `str.lower()` is modelled by lowercasing each character (the tag
names the repository uses are ASCII, where the two agree). -/

/-- Python `str.lower()`: lowercase every character of the string. -/
def strLower (st : String) : String := ⟨st.data.map Char.toLower⟩

/-- The tag record `create_tag` builds:
`{"label": name, "name": name.lower(), "sortType": "project"}`, plus
`color` when truthy and the lowercased `parent` when truthy. -/
def build_tag (name : String) (color parent : Option String) : Record :=
  let tag : Record := [("label", .s name), ("name", .s (strLower name)),
                       ("sortType", .s "project")]
  let tag := match color with
             | some c => if c ≠ "" then tag ++ [("color", .s c)] else tag
             | none => tag
  match parent with
  | some p => if p ≠ "" then tag ++ [("parent", .s (strLower p))] else tag
  | none => tag

/-- Embeds `TickTickClient.create_tag`: requires V2; builds the tag record and
submits it via `batch_tag(add=[tag])`.  The result is the built record. -/
def create_tag (hasV2 : Bool) (name : String) (color parent : Option String) :
    Except String Record :=
  if !hasV2 then .error "tag-create 需要 V2 認證 (USERNAME+PASSWORD)"
  else .ok (build_tag name color parent)

/-! ## V2 login (`TickTickV2._login`) -/

/-- A login endpoint's response: an HTTP error (code and body), or a 2xx
JSON body carrying an optional `token`. -/
inductive LoginResp where
  | httpErr (code : Nat) (body : String)
  | success (token : Option String)
  deriving DecidableEq, Repr

/-- The two known login endpoints, in the order the code tries them. -/
def loginEndpoints : List String := ["/user/signon", "/user/signin"]

/-- The recorded error string for a failing endpoint:
`f"HTTP {e.code}: {body}"`. -/
def httpErrString (code : Nat) (body : String) : String :=
  "HTTP " ++ toString code ++ ": " ++ body

/-- The fatal message when every endpoint has been tried:
`f"V2 登入失敗（已嘗試所有端點）: {last_error}"` (Python renders a never-set
`last_error` as `None`). -/
def loginFailMsg (lastError : Option String) : String :=
  "V2 登入失敗（已嘗試所有端點）: " ++ (match lastError with
                                       | some e => e
                                       | none => "None")

/-- The loop of `_login`: try each endpoint in order; an HTTP error is
recorded in `last_error` and the next endpoint is tried; a 2xx response
without a `token` moves on without recording anything; the first 2xx
response with a token ends the loop.  Returns the endpoints attempted, in
order, and the outcome: the session token, or the fatal `_error_exit`
message. -/
def loginGo (respond : String → LoginResp) :
    List String → Option String → List String × Except String String
  | [], lastError => ([], .error (loginFailMsg lastError))
  | ep :: rest, lastError =>
    match respond ep with
    | .success (some tok) => ([ep], .ok tok)
    | .success none =>
      let r := loginGo respond rest lastError
      (ep :: r.1, r.2)
    | .httpErr code body =>
      let r := loginGo respond rest (some (httpErrString code body))
      (ep :: r.1, r.2)

/-- Embeds `TickTickV2._login`, over the endpoint-response oracle `respond`. -/
def login (respond : String → LoginResp) :
    List String × Except String String :=
  loginGo respond loginEndpoints none

/-! ## Dispatcher construction (`TickTickClient.__init__`) -/

/-- The state of a constructed dispatcher: whether the V1 client exists,
and the V2 session token when the V2 client was constructed. -/
structure Client where
  hasV1 : Bool
  v2session : Option String
  deriving DecidableEq, Repr

/-- Embeds `TickTickClient.__init__`: the V1 client is constructed iff the access
token is truthy (its constructor does no network I/O); the V2 client is
constructed — running the login handshake, one `loginPost` event per
attempted endpoint — iff username and password are both truthy; if
neither client is constructed, `_error_exit` prints the configuration
error and exits non-zero, modelled as `Except.error`.  Returns the
outcome paired with every network event issued. -/
def mkClient (accessToken username password : Option String)
    (respond : String → LoginResp) : Except String Client × List NetEvent :=
  let wantV1 := optTruthy accessToken
  if optTruthy username && optTruthy password then
    let r := login respond
    let events := r.1.map NetEvent.loginPost
    match r.2 with
    | .error e => (.error e, events)
    | .ok tok => (.ok ⟨wantV1, some tok⟩, events)
  else
    if wantV1 then (.ok ⟨true, none⟩, [])
    else
      (.error "至少需要 V1 (TICKTICK_ACCESS_TOKEN) 或 V2 (USERNAME+PASSWORD) 認證", [])

/-! ## Listing operations (`TickTickClient.list_projects` / `list_tasks`) -/

/-- The project-data response of `v1.get_project_data`, as the code reads
it: `data.get("tasks", [])` (a response without a `tasks` key reads as the
empty list). -/
structure ProjectData where
  tasks : List Record
  deriving DecidableEq, Repr

/-- The V2 sync snapshot (`/batch/check/0`), as the code reads it:
`data.get("projectProfiles", [])` and
`data.get("syncTaskBean", {}).get("update", [])`. -/
structure SyncData where
  projectProfiles : List Record
  syncTasks : List Record
  deriving DecidableEq, Repr

/-- The V1 client's remote behaviour: the successful `list_projects`
response, and the per-project `get_project_data` responses (a failed
fetch makes `_error_exit` raise `SystemExit`, modelled as
`Except.error`). -/
structure V1Api where
  projects : List Record
  getProjectData : String → Except Unit ProjectData

/-- The V2 client's remote behaviour: the sync snapshot. -/
structure V2Api where
  syncData : SyncData

/-- The dispatcher's backends: `self.v1` and `self.v2`. -/
structure Backends where
  v1 : Option V1Api
  v2 : Option V2Api

/-- Embeds `TickTickClient.list_projects`: served by V1 when present, otherwise
by the `projectProfiles` of a V2 sync (with neither backend the attribute
access would crash; the constructor prevents that state). -/
def list_projects (B : Backends) : Except Unit (List Record) :=
  match B.v1 with
  | some a => .ok a.projects
  | none =>
    match B.v2 with
    | some b => .ok b.syncData.projectProfiles
    | none => .error ()

/-- The V1 fallback loop of unscoped `list_tasks`: for each project in
order, fetch its project data by its `"id"` field and append the `tasks`;
a project whose fetch raises `SystemExit` is skipped (`except SystemExit:
pass`); a project record without a string `"id"` would raise an uncaught
`KeyError`/`TypeError`, aborting the listing. -/
def v1EnumerateTasks (a : V1Api) : List Record → Except Unit (List Record)
  | [] => .ok []
  | p :: ps =>
    match lookupField p "id" with
    | some (.s pid) =>
      match a.getProjectData pid with
      | .ok pd => (v1EnumerateTasks a ps).map (pd.tasks ++ ·)
      | .error _ => v1EnumerateTasks a ps
    | _ => .error ()

/-- The tail of `list_tasks` after the scoped-V1 early return: with V2
present, the sync snapshot's task list, filtered by `projectId` when the
scope is truthy; with V2 absent, the V1 project-enumeration fallback. -/
def list_tasks_rest (B : Backends) (projectId : Option String) :
    Except Unit (List Record) :=
  match B.v2 with
  | some b =>
    let tasks := b.syncData.syncTasks
    .ok (match projectId with
         | some pid =>
           if pid ≠ "" then
             tasks.filter (fun t =>
               decide (lookupField t "projectId" = some (.s pid)))
           else tasks
         | none => tasks)
  | none =>
    match B.v1 with
    | some a => v1EnumerateTasks a a.projects
    | none => .error ()

/-- Embeds `TickTickClient.list_tasks`: a truthy project scope with V1 present is
served from the V1 project data; every other case falls through to
`list_tasks_rest`. -/
def list_tasks (B : Backends) (projectId : Option String) :
    Except Unit (List Record) :=
  match projectId, B.v1 with
  | some pid, some a =>
    if pid ≠ "" then (a.getProjectData pid).map (·.tasks)
    else list_tasks_rest B projectId
  | _, _ => list_tasks_rest B projectId

/-! ## Attachment id generation (`TickTickV2.upload_attachment`) -/

/-- A lowercase hexadecimal digit character for `n < 16`
(`'0'`-`'9'`, `'a'`-`'f'`). -/
def hexChar (n : Nat) : Char :=
  if n < 10 then Char.ofNat (48 + n) else Char.ofNat (87 + n)

/-- Fuel-driven base-16 digit accumulation; the fuel `n + 1` of
`hexDigits` always suffices, since `n` has at most `n + 1` digits. -/
def hexDigitsAux : Nat → Nat → List Char → List Char
  | 0, _, acc => acc
  | fuel + 1, n, acc =>
    if n < 16 then hexChar n :: acc
    else hexDigitsAux fuel (n / 16) (hexChar (n % 16) :: acc)

/-- Python `format(n, 'x')`: the minimal-length lowercase base-16 digit
string of `n`. -/
def hexDigits (n : Nat) : List Char := hexDigitsAux (n + 1) n []

/-- Python `format(n, '08x')`: the base-16 digits of `n`, left-padded
with `'0'` to at least width 8. -/
def format08x (n : Nat) : List Char :=
  let ds := hexDigits n
  List.replicate (8 - ds.length) '0' ++ ds

/-- The attachment id built by `upload_attachment`:
`format(int(time.time()), '08x') + secrets.token_hex(8)`, over the call
timestamp `t` and the 16 random hex characters `rand` that
`secrets.token_hex(8)` returned. -/
def attachmentId (t : Nat) (rand : List Char) : List Char :=
  format08x t ++ rand

/-- Membership in the lowercase hexadecimal alphabet. -/
def isLowerHexChar (c : Char) : Bool :=
  (48 ≤ c.toNat && c.toNat ≤ 57) || (97 ≤ c.toNat && c.toNat ≤ 102)

/-! ## CLI: task listing status filter (`cmd_tasks`) -/

/-- The status filter of `cmd_tasks`: with `--status pending` keep tasks
with `t.get("status", 0) == 0`, with `--status completed` keep tasks with
`t.get("status", 0) == 2`, otherwise keep all. -/
def cmd_tasks_filter (status : Option String) (tasks : List Record) : List Record :=
  if status = some "pending" then
    tasks.filter (fun t => decide ((lookupField t "status").getD (.n 0) = .n 0))
  else if status = some "completed" then
    tasks.filter (fun t => decide ((lookupField t "status").getD (.n 0) = .n 2))
  else tasks

/-! ## Concrete fixtures used to exercise the listing operations -/

/-- A V1 backend with one project `p1` whose project data holds the one
task titled `fromV1`. -/
def v1Demo : V1Api :=
  ⟨[[("id", .s "p1")]], fun _ => .ok ⟨[[("title", .s "fromV1")]]⟩⟩

/-- A V2 backend whose sync snapshot holds the one task titled
`fromV2`. -/
def v2Demo : V2Api :=
  ⟨⟨[[("id", .s "p1")]], [[("title", .s "fromV2")]]⟩⟩

/-- A V1 backend with projects `p1` (two tasks) and `p2` (fetch fails). -/
def v1FailDemo : V1Api :=
  ⟨[[("id", .s "p1")], [("id", .s "p2")]],
   fun pid =>
     if pid = "p1" then .ok ⟨[[("title", .s "t1")], [("title", .s "t2")]]⟩
     else .error ()⟩

end TickTick

namespace TickTick

/-! ## Lookup lemmas -/

theorem lookupField_append (l₁ l₂ : Record) (k : String) :
    lookupField (l₁ ++ l₂) k =
      ((lookupField l₁ k).rec (lookupField l₂ k) (fun v => some v)) := by
  induction l₁ with
  | nil => simp [lookupField]
  | cons p rest ih =>
    obtain ⟨a, v⟩ := p
    by_cases h : a = k <;> simp [lookupField, h, ih]

theorem lookupField_map_upd (e u : Record) (k : String) :
    lookupField (e.map (fun p => match lookupField u p.1 with
                                 | some v => (p.1, v)
                                 | none => p)) k =
      (lookupField e k).map (fun b => ((lookupField u k).rec b (fun v => v))) := by
  induction e with
  | nil => simp [lookupField]
  | cons p rest ih =>
    obtain ⟨a, bv⟩ := p
    by_cases h : a = k
    · subst h
      cases hu : lookupField u a <;> simp [lookupField, hu]
    · cases hu : lookupField u a <;> simp [lookupField, h, ih, hu]

theorem lookupField_filter_none (e u : Record) (k : String) :
    lookupField (u.filter (fun p => (lookupField e p.1).isNone)) k =
      if (lookupField e k).isNone then lookupField u k else none := by
  induction u with
  | nil => simp [lookupField]
  | cons p rest ih =>
    obtain ⟨a, v⟩ := p
    by_cases h : a = k
    · subst h
      cases he : lookupField e a <;> simp [List.filter, lookupField, he, ih]
    · cases he : lookupField e a <;>
        cases hea : lookupField e k <;>
          simp_all [List.filter, lookupField, h, he, hea]

/-- The merged dict looks up to `u`'s value when `u` has the key, and to
`e`'s value otherwise. -/
theorem lookupField_dictUpdate (e u : Record) (k : String) :
    lookupField (dictUpdate e u) k =
      match lookupField u k with
      | some v => some v
      | none => lookupField e k := by
  unfold dictUpdate
  rw [lookupField_append, lookupField_map_upd, lookupField_filter_none]
  cases hu : lookupField u k <;> cases he : lookupField e k <;> simp

/-! ## Claim theorems -/

/-- C5: the priority mapping restricted to {none, low, medium, high} and
{0, 1, 3, 5} is a bijection: the forward map sends none↦0, low↦1,
medium↦3, high↦5, the reverse map inverts it, and the two composites are
the identity on that domain. -/
theorem priority_map_bijection :
    (PRIORITY_MAP "none" = some 0 ∧ PRIORITY_MAP "low" = some 1 ∧
     PRIORITY_MAP "medium" = some 3 ∧ PRIORITY_MAP "high" = some 5) ∧
    (PRIORITY_REVERSE 0 = some "none" ∧ PRIORITY_REVERSE 1 = some "low" ∧
     PRIORITY_REVERSE 3 = some "medium" ∧ PRIORITY_REVERSE 5 = some "high") ∧
    ((PRIORITY_MAP "none").bind PRIORITY_REVERSE = some "none" ∧
     (PRIORITY_MAP "low").bind PRIORITY_REVERSE = some "low" ∧
     (PRIORITY_MAP "medium").bind PRIORITY_REVERSE = some "medium" ∧
     (PRIORITY_MAP "high").bind PRIORITY_REVERSE = some "high") ∧
    ((PRIORITY_REVERSE 0).bind PRIORITY_MAP = some 0 ∧
     (PRIORITY_REVERSE 1).bind PRIORITY_MAP = some 1 ∧
     (PRIORITY_REVERSE 3).bind PRIORITY_MAP = some 3 ∧
     (PRIORITY_REVERSE 5).bind PRIORITY_MAP = some 5) :=
  ⟨⟨rfl, rfl, rfl, rfl⟩, ⟨rfl, rfl, rfl, rfl⟩,
   ⟨rfl, rfl, rfl, rfl⟩, rfl, rfl, rfl, rfl⟩

/-- C1: when V1 is present, the update names a nonempty string `projectId`
and the fetch of the existing task returns `E`, `update_task` first issues
the fetch and then submits exactly `dictUpdate E U`; consequently every
field of `E` absent from `U` is unchanged in the submitted record and
every field of `U` appears with `U`'s value. -/
theorem update_task_merges (getTask : String → String → Except String Record)
    (taskId pid : String) (E U : Record)
    (hpid : lookupField U "projectId" = some (.s pid)) (hne : pid ≠ "")
    (hget : getTask pid taskId = .ok E) :
    (update_task true getTask taskId U).1 = .ok (dictUpdate E U) ∧
    (update_task true getTask taskId U).2 =
      [.getTask pid taskId, .postTask taskId] ∧
    (∀ k v, lookupField E k = some v → lookupField U k = none →
      lookupField (dictUpdate E U) k = some v) ∧
    (∀ k v, lookupField U k = some v →
      lookupField (dictUpdate E U) k = some v) := by
  refine ⟨?_, ?_, ?_, ?_⟩
  · simp [update_task, hpid, jvalTruthy, hne, hget]
  · simp [update_task, hpid, jvalTruthy, hne, hget]
  · intro k v hE hU
    rw [lookupField_dictUpdate, hU, hE]
  · intro k v hU
    rw [lookupField_dictUpdate, hU]

theorem update_task_merges_witness :
    (update_task true
        (fun _ _ => .ok [("title", JVal.s "A"), ("attachments", JVal.s "X"),
                         ("projectId", JVal.s "p1")])
        "t1" [("projectId", JVal.s "p1"), ("title", JVal.s "B")]).1 =
      .ok [("title", JVal.s "B"), ("attachments", JVal.s "X"),
           ("projectId", JVal.s "p1")] := by
  have h := update_task_merges
    (fun _ _ => .ok [("title", JVal.s "A"), ("attachments", JVal.s "X"),
                     ("projectId", JVal.s "p1")])
    "t1" "p1"
    [("title", JVal.s "A"), ("attachments", JVal.s "X"), ("projectId", JVal.s "p1")]
    [("projectId", JVal.s "p1"), ("title", JVal.s "B")]
    rfl (by decide) rfl
  exact h.1.trans (congrArg Except.ok (by decide))

/-- C9: a call to `update_task` whose supplied fields contain no
`projectId` fails with an error, whatever the client configuration, and
issues no network traffic at all — neither the fetch of the existing task
nor a submission. -/
theorem update_task_requires_projectId (hasV1 : Bool)
    (getTask : String → String → Except String Record)
    (taskId : String) (kwargs : Record)
    (h : lookupField kwargs "projectId" = none) :
    (∃ msg, (update_task hasV1 getTask taskId kwargs).1 = .error msg) ∧
    (update_task hasV1 getTask taskId kwargs).2 = [] := by
  cases hasV1 <;> simp [update_task, h]

theorem update_task_requires_projectId_witness :
    (∃ msg, (update_task true (fun _ _ => .ok [])
        "t1" [("title", JVal.s "B")]).1 = .error msg) ∧
    (update_task true (fun _ _ => .ok []) "t1" [("title", JVal.s "B")]).2 = [] :=
  update_task_requires_projectId true (fun _ _ => .ok []) "t1"
    [("title", JVal.s "B")] rfl

/-- C8: tag creation (with V2 available) builds a record whose `label`
field is the caller-supplied name verbatim, whose `name` field is the
lowercased name, and whose `parent` field, when a nonempty parent is
supplied, is the lowercased parent name. -/
theorem create_tag_lowercases (name : String) (color parent : Option String) :
    create_tag true name color parent = .ok (build_tag name color parent) ∧
    lookupField (build_tag name color parent) "label" = some (.s name) ∧
    lookupField (build_tag name color parent) "name" =
      some (.s (strLower name)) ∧
    (∀ p, parent = some p → p ≠ "" →
      lookupField (build_tag name color parent) "parent" =
        some (.s (strLower p))) := by
  refine ⟨rfl, ?_, ?_, ?_⟩
  · cases color <;> cases parent <;> simp only [build_tag] <;>
      (repeat' split) <;> simp [lookupField]
  · cases color <;> cases parent <;> simp only [build_tag] <;>
      (repeat' split) <;> simp [lookupField]
  · intro p hp hne
    subst hp
    cases color <;> simp only [build_tag] <;>
      (repeat' split) <;> simp_all [lookupField]

theorem create_tag_lowercases_witness :
    create_tag true "MyTag" none (some "ParenT") =
      .ok (build_tag "MyTag" none (some "ParenT")) ∧
    lookupField (build_tag "MyTag" none (some "ParenT")) "label" =
      some (.s "MyTag") ∧
    lookupField (build_tag "MyTag" none (some "ParenT")) "name" =
      some (.s "mytag") ∧
    lookupField (build_tag "MyTag" none (some "ParenT")) "parent" =
      some (.s "parent") := by
  obtain ⟨h1, h2, h3, h4⟩ :=
    create_tag_lowercases "MyTag" none (some "ParenT")
  refine ⟨h1, h2, ?_, ?_⟩
  · rw [h3]; decide
  · rw [h4 "ParenT" rfl (by decide)]; decide

/-- C10: the CLI status filter treats a task with no `status` field as
open: filtering by pending keeps exactly the tasks whose status is `0` or
absent, filtering by completed keeps exactly the tasks whose status is
`2`; hence a status-less task of the list appears in the pending result
and never in the completed result. -/
theorem cmd_tasks_statusless_is_pending (ts : List Record) :
    cmd_tasks_filter (some "pending") ts =
      ts.filter (fun t => decide (lookupField t "status" = some (.n 0) ∨
                                  lookupField t "status" = none)) ∧
    cmd_tasks_filter (some "completed") ts =
      ts.filter (fun t => decide (lookupField t "status" = some (.n 2))) ∧
    (∀ t, t ∈ ts → lookupField t "status" = none →
      t ∈ cmd_tasks_filter (some "pending") ts ∧
      t ∉ cmd_tasks_filter (some "completed") ts) := by
  have hpend : cmd_tasks_filter (some "pending") ts =
      ts.filter (fun t => decide (lookupField t "status" = some (.n 0) ∨
                                  lookupField t "status" = none)) := by
    unfold cmd_tasks_filter
    simp only [if_pos rfl]
    apply List.filter_congr
    intro t _
    cases h : lookupField t "status" <;> simp [h]
  have hcomp : cmd_tasks_filter (some "completed") ts =
      ts.filter (fun t => decide (lookupField t "status" = some (.n 2))) := by
    unfold cmd_tasks_filter
    simp only [reduceIte]
    apply List.filter_congr
    intro t _
    cases h : lookupField t "status" <;> simp [h]
  refine ⟨hpend, hcomp, ?_⟩
  intro t ht hnone
  constructor
  · rw [hpend, List.mem_filter]
    exact ⟨ht, by simp [hnone]⟩
  · rw [hcomp, List.mem_filter]
    intro hmem
    rw [hnone] at hmem
    simp at hmem

/-- C3: login tries `/user/signon` then `/user/signin` in that order,
stopping at the first success (the second endpoint is then never
attempted); each failing endpoint's HTTP error is recorded, and when both
endpoints fail the process exits fatally with a single message carrying
the last attempted endpoint's recorded error. -/
theorem login_tries_endpoints_in_order (respond : String → LoginResp) :
    (∀ tok, respond "/user/signon" = .success (some tok) →
      login respond = (["/user/signon"], .ok tok)) ∧
    (∀ c b tok, respond "/user/signon" = .httpErr c b →
      respond "/user/signin" = .success (some tok) →
      login respond = (["/user/signon", "/user/signin"], .ok tok)) ∧
    (∀ c₁ b₁ c₂ b₂, respond "/user/signon" = .httpErr c₁ b₁ →
      respond "/user/signin" = .httpErr c₂ b₂ →
      login respond =
        (["/user/signon", "/user/signin"],
         .error (loginFailMsg (some (httpErrString c₂ b₂))))) := by
  refine ⟨?_, ?_, ?_⟩
  · intro tok h
    simp [login, loginEndpoints, loginGo, h]
  · intro c b tok h₁ h₂
    simp [login, loginEndpoints, loginGo, h₁, h₂]
  · intro c₁ b₁ c₂ b₂ h₁ h₂
    simp [login, loginEndpoints, loginGo, h₁, h₂]

theorem login_tries_endpoints_in_order_witness :
    login (fun ep => if ep = "/user/signon" then .httpErr 404 "not found"
                     else .httpErr 500 "server error") =
      (["/user/signon", "/user/signin"],
       .error (loginFailMsg (some (httpErrString 500 "server error")))) :=
  (login_tries_endpoints_in_order
      (fun ep => if ep = "/user/signon" then .httpErr 404 "not found"
                 else .httpErr 500 "server error")).2.2
    404 "not found" 500 "server error" (by decide) (by decide)

/-- C6: constructing the dispatcher with no truthy access token and no
complete truthy username+password pair yields the configuration error
(`_error_exit` prints it and exits non-zero) and issues no network event
whatsoever. -/
theorem mkClient_no_creds_fails (accessToken username password : Option String)
    (respond : String → LoginResp)
    (h1 : optTruthy accessToken = false)
    (h2 : ¬(optTruthy username = true ∧ optTruthy password = true)) :
    mkClient accessToken username password respond =
      (.error "至少需要 V1 (TICKTICK_ACCESS_TOKEN) 或 V2 (USERNAME+PASSWORD) 認證",
       []) := by
  have hb : (optTruthy username && optTruthy password) = false := by
    cases hu : optTruthy username <;> cases hp : optTruthy password <;>
      simp_all
  simp [mkClient, hb, h1]

theorem mkClient_no_creds_fails_witness :
    mkClient none none none (fun _ => .httpErr 500 "server error") =
      (.error "至少需要 V1 (TICKTICK_ACCESS_TOKEN) 或 V2 (USERNAME+PASSWORD) 認證",
       []) :=
  mkClient_no_creds_fails none none none (fun _ => .httpErr 500 "server error")
    rfl (by decide)

theorem cmd_tasks_statusless_is_pending_witness :
    [("title", JVal.s "x")] ∈
      cmd_tasks_filter (some "pending") [[("title", JVal.s "x")]] ∧
    [("title", JVal.s "x")] ∉
      cmd_tasks_filter (some "completed") [[("title", JVal.s "x")]] :=
  (cmd_tasks_statusless_is_pending [[("title", JVal.s "x")]]).2.2
    [("title", JVal.s "x")] (by decide) rfl

/-! ## Listing dispatch -/

/-- C2 fails as stated: with both credential sets present, unscoped task
listing is served by the V2 sync snapshot, not by the official (V1)
interface — here the V2-derived result differs from what enumerating the
V1 projects would return. -/
theorem list_tasks_unscoped_uses_v2_counterexample :
    list_tasks ⟨some v1Demo, some v2Demo⟩ none =
      .ok [[("title", JVal.s "fromV2")]] ∧
    v1EnumerateTasks v1Demo v1Demo.projects =
      .ok [[("title", JVal.s "fromV1")]] ∧
    ([[("title", JVal.s "fromV2")]] : List Record) ≠
      [[("title", JVal.s "fromV1")]] :=
  ⟨rfl, rfl, by decide⟩

/-- C2 amended: project listing prefers V1, deriving from a V2 sync only
when V1 is absent; a (truthy-)scoped task listing prefers V1; but an
unscoped task listing is served from the V2 sync whenever V2 is present
(even when V1 is too), and only with V2 absent does it fall back to
enumerating the V1 projects. -/
theorem list_dispatch_preference (B : Backends) :
    (∀ a, B.v1 = some a → list_projects B = .ok a.projects) ∧
    (∀ b, B.v1 = none → B.v2 = some b →
      list_projects B = .ok b.syncData.projectProfiles) ∧
    (∀ a pid, B.v1 = some a → pid ≠ "" →
      list_tasks B (some pid) = (a.getProjectData pid).map (·.tasks)) ∧
    (∀ b, B.v2 = some b → list_tasks B none = .ok b.syncData.syncTasks) ∧
    (∀ a, B.v2 = none → B.v1 = some a →
      list_tasks B none = v1EnumerateTasks a a.projects) := by
  obtain ⟨v1?, v2?⟩ := B
  refine ⟨?_, ?_, ?_, ?_, ?_⟩
  · intro a ha
    simp only at ha
    subst ha
    rfl
  · intro b h1 h2
    simp only at h1 h2
    subst h1; subst h2
    rfl
  · intro a pid ha hpid
    simp only at ha
    subst ha
    simp [list_tasks, hpid]
  · intro b hb
    simp only at hb
    subst hb
    cases v1? <;> simp [list_tasks, list_tasks_rest]
  · intro a h2 h1
    simp only at h1 h2
    subst h1; subst h2
    rfl

theorem list_dispatch_preference_witness :
    list_projects ⟨some v1Demo, some v2Demo⟩ = .ok v1Demo.projects ∧
    list_tasks ⟨some v1Demo, some v2Demo⟩ none =
      .ok v2Demo.syncData.syncTasks ∧
    list_tasks ⟨some v1Demo, none⟩ none =
      v1EnumerateTasks v1Demo v1Demo.projects :=
  ⟨(list_dispatch_preference ⟨some v1Demo, some v2Demo⟩).1 v1Demo rfl,
   (list_dispatch_preference ⟨some v1Demo, some v2Demo⟩).2.2.2.1 v2Demo rfl,
   (list_dispatch_preference ⟨some v1Demo, none⟩).2.2.2.2 v1Demo rfl rfl⟩

theorem v1EnumerateTasks_filterMap (a : V1Api) (ps : List Record)
    (hids : ∀ p ∈ ps, ∃ pid, lookupField p "id" = some (.s pid)) :
    v1EnumerateTasks a ps =
      .ok ((ps.filterMap (fun p =>
        match lookupField p "id" with
        | some (.s pid) =>
          match a.getProjectData pid with
          | .ok pd => some pd.tasks
          | .error _ => none
        | _ => none)).flatten) := by
  induction ps with
  | nil => rfl
  | cons p ps ih =>
    obtain ⟨pid, hpid⟩ := hids p (by simp)
    have ih' := ih (fun q hq => hids q (by simp [hq]))
    cases hpd : a.getProjectData pid with
    | ok pd =>
      simp [v1EnumerateTasks, hpid, hpd, List.filterMap_cons, ih', Except.map]
    | error e =>
      simp [v1EnumerateTasks, hpid, hpd, List.filterMap_cons, ih', Except.map]

/-- C4: with only the official interface available, unscoped task listing
enumerates every project in order and returns the concatenation of the
task lists of exactly the projects whose fetch succeeds, skipping each
failing project without aborting (assuming each listed project carries a
string id, as remote project records do). -/
theorem list_tasks_v1_fallback_skips_failures (a : V1Api)
    (hids : ∀ p ∈ a.projects, ∃ pid, lookupField p "id" = some (.s pid)) :
    list_tasks ⟨some a, none⟩ none =
      .ok ((a.projects.filterMap (fun p =>
        match lookupField p "id" with
        | some (.s pid) =>
          match a.getProjectData pid with
          | .ok pd => some pd.tasks
          | .error _ => none
        | _ => none)).flatten) := by
  have h := v1EnumerateTasks_filterMap a a.projects hids
  simpa [list_tasks, list_tasks_rest] using h

theorem list_tasks_v1_fallback_skips_failures_witness :
    list_tasks ⟨some v1FailDemo, none⟩ none =
      .ok [[("title", JVal.s "t1")], [("title", JVal.s "t2")]] := by
  have h := list_tasks_v1_fallback_skips_failures v1FailDemo (by
    intro p hp
    simp [v1FailDemo] at hp
    rcases hp with h | h <;> subst h <;> exact ⟨_, rfl⟩)
  exact h.trans (congrArg Except.ok (by decide))

/-! ## Attachment id -/

theorem hexChar_lower (m : Nat) (hm : m < 16) :
    isLowerHexChar (hexChar m) = true := by
  interval_cases m <;> decide

theorem hexDigitsAux_length_le (k : Nat) :
    ∀ fuel n acc, n < 16 ^ (k + 1) →
      (hexDigitsAux fuel n acc).length ≤ (k + 1) + acc.length := by
  induction k with
  | zero =>
    intro fuel n acc h
    cases fuel with
    | zero => simp [hexDigitsAux]
    | succ f =>
      have hn : n < 16 := by simpa using h
      simp [hexDigitsAux, hn]
      omega
  | succ k ih =>
    intro fuel n acc h
    cases fuel with
    | zero =>
      simp [hexDigitsAux]
    | succ f =>
      by_cases hn : n < 16
      · simp [hexDigitsAux, hn]
        omega
      · have hdiv : n / 16 < 16 ^ (k + 1) := by
          have h16 : (0 : Nat) < 16 := by norm_num
          rw [Nat.div_lt_iff_lt_mul h16]
          calc n < 16 ^ (k + 1 + 1) := h
            _ = 16 ^ (k + 1) * 16 := by ring
        have hrec := ih f (n / 16) (hexChar (n % 16) :: acc) hdiv
        simp only [hexDigitsAux, if_neg hn]
        simp at hrec ⊢
        omega

theorem hexDigitsAux_chars (fuel : Nat) :
    ∀ n acc, (∀ c ∈ acc, isLowerHexChar c = true) →
      ∀ c ∈ hexDigitsAux fuel n acc, isLowerHexChar c = true := by
  induction fuel with
  | zero => intro n acc hacc c hc; exact hacc c hc
  | succ f ih =>
    intro n acc hacc c hc
    by_cases hn : n < 16
    · simp [hexDigitsAux, hn] at hc
      rcases hc with hc | hc
      · subst hc; exact hexChar_lower n hn
      · exact hacc c hc
    · simp only [hexDigitsAux, if_neg hn] at hc
      refine ih (n / 16) (hexChar (n % 16) :: acc) ?_ c hc
      intro d hd
      rcases List.mem_cons.mp hd with hd | hd
      · subst hd; exact hexChar_lower _ (Nat.mod_lt n (by norm_num))
      · exact hacc d hd

theorem format08x_length (t : Nat) (ht : t < 2 ^ 32) :
    (format08x t).length = 8 := by
  have h16 : t < 16 ^ (7 + 1) := by
    have : (16 : Nat) ^ 8 = 2 ^ 32 := by norm_num
    omega
  have hle := hexDigitsAux_length_le 7 (t + 1) t [] h16
  simp only [List.length_nil, Nat.add_zero] at hle
  simp only [format08x, hexDigits, List.length_append, List.length_replicate]
  omega

/-- C7: at a call whose Unix timestamp `t` fits in 8 hex digits (as every
timestamp until 2106 does) and whose `secrets.token_hex(8)` result `rand`
is 16 lowercase hex characters, the generated attachment id is a
24-character lowercase hexadecimal string whose first 8 characters are
the 8-hex-digit `format(t, '08x')` encoding of the timestamp and whose
remaining 16 characters are exactly the random hex characters. -/
theorem attachmentId_hex24 (t : Nat) (rand : List Char)
    (ht : t < 2 ^ 32) (hlen : rand.length = 16)
    (hhex : ∀ c ∈ rand, isLowerHexChar c = true) :
    (attachmentId t rand).length = 24 ∧
    (∀ c ∈ attachmentId t rand, isLowerHexChar c = true) ∧
    (format08x t).length = 8 ∧
    (attachmentId t rand).take 8 = format08x t ∧
    (attachmentId t rand).drop 8 = rand := by
  have h8 := format08x_length t ht
  refine ⟨?_, ?_, h8, ?_, ?_⟩
  · simp [attachmentId, h8, hlen]
  · intro c hc
    rcases List.mem_append.mp hc with hc | hc
    · simp only [format08x, hexDigits] at hc
      rcases List.mem_append.mp hc with hc | hc
      · have h0 : c = '0' := List.eq_of_mem_replicate hc
        subst h0; decide
      · exact hexDigitsAux_chars (t + 1) t [] (by simp) c hc
    · exact hhex c hc
  · rw [attachmentId, ← h8, List.take_left]
  · rw [attachmentId, ← h8, List.drop_left]

theorem attachmentId_hex24_witness :
    (attachmentId 1700000000
      ['d', 'e', 'a', 'd', 'b', 'e', 'e', 'f',
       '4', '2', 'c', '0', 'f', 'f', '3', '7']).length = 24 ∧
    (attachmentId 1700000000
      ['d', 'e', 'a', 'd', 'b', 'e', 'e', 'f',
       '4', '2', 'c', '0', 'f', 'f', '3', '7']).drop 8 =
      ['d', 'e', 'a', 'd', 'b', 'e', 'e', 'f',
       '4', '2', 'c', '0', 'f', 'f', '3', '7'] := by
  have h := attachmentId_hex24 1700000000
    ['d', 'e', 'a', 'd', 'b', 'e', 'e', 'f',
     '4', '2', 'c', '0', 'f', 'f', '3', '7']
    (by norm_num) rfl (by decide)
  exact ⟨h.1, h.2.2.2.2⟩

end TickTick
